import Mathlib

/-!
Shallow embedding of the `astrbot_steam_watch_status` plugin
(`main.py`, `steam_api.py`, `steam_store.py`) and proofs about the
behaviour its specification claims.

Python strings are modelled as Lean `String`/`List Char`, Python ints as
`Int`, dict-shaped records as structures with the fields the code touches,
and fallible external calls (HTTP fetches, the LLM provider) as `Option`
inputs at the point where the code consumes their result.
-/

namespace SteamWatch

/-! ## Python-truthiness helpers

`pyOrI a b` models the Python expression `int(a or b)` for integer `a`
(`0` is falsy); `pyOrS a b` models `str(a or b)` for string `a`
(`""` is falsy). -/

def pyOrI (a b : Int) : Int := if a = 0 then b else a

def pyOrS (a b : String) : String := if a = "" then b else a

/-- Python `str.isspace`-style whitespace as matched by `\s` in the
sanitizer, restricted to the ASCII whitespace characters. -/
def isPySpace (c : Char) : Bool :=
  c == ' ' || c == '\t' || c == '\n' || c == '\r' || c.val == 11 || c.val == 12

def lstripBy (p : Char → Bool) (l : List Char) : List Char := l.dropWhile p

def rstripBy (p : Char → Bool) (l : List Char) : List Char :=
  (l.reverse.dropWhile p).reverse

def stripBy (p : Char → Bool) (l : List Char) : List Char :=
  rstripBy p (lstripBy p l)

/-- One pass of `re.sub(r"\s+", " ", text)`: every maximal run of
whitespace becomes a single ASCII space.  `prevSpace` records whether the
previous emitted character closed a whitespace run. -/
def collapseWsAux : List Char → Bool → List Char
  | [], _ => []
  | c :: rest, prevSpace =>
    if isPySpace c then
      if prevSpace then collapseWsAux rest true
      else ' ' :: collapseWsAux rest true
    else c :: collapseWsAux rest false

def collapseWs (l : List Char) : List Char := collapseWsAux l false

/-! ## `main.py` — `_parse_poll_interval_sec` -/

def digitsToNat (l : List Char) : Nat :=
  l.foldl (fun acc c => acc * 10 + (c.toNat - 48)) 0

/-- Python `int(text)` on an already-stripped string: an optional sign
followed by at least one digit parses; everything else raises (modelled
as `Option.none`). -/
def pyParseInt (s : String) : Option Int :=
  match s.data with
  | [] => Option.none
  | c :: rest =>
    if c = '-' then
      if rest ≠ [] ∧ rest.all Char.isDigit then some (-(digitsToNat rest : Int))
      else Option.none
    else if c = '+' then
      if rest ≠ [] ∧ rest.all Char.isDigit then some ((digitsToNat rest : Int))
      else Option.none
    else if (c :: rest).all Char.isDigit then some ((digitsToNat (c :: rest) : Int))
    else Option.none

def pyStrip (s : String) : String := String.mk (stripBy isPySpace s.data)

/-- `SteamWatch._parse_poll_interval_sec`: `int(str(raw).strip())` with a
fallback of 60 on parse failure, then clamped below by 10. -/
def parsePollIntervalSec (raw : String) : Int :=
  let val := (pyParseInt (pyStrip raw)).getD 60
  if val < 10 then 10 else val

/-! ## `steam_store.py` — `SteamStateStore` -/

/-- A loosely-typed Python value as stored in the persisted JSON
document. -/
inductive PyVal where
  | str (s : String)
  | int (n : Int)
  | bool (b : Bool)
  | list (xs : List PyVal)
  | dict (kvs : List (String × PyVal))
  | pynone
deriving Repr

/-- `dict.get(k)`: first matching key, `None` (here `Option.none`) when
absent. -/
def dictGet (kvs : List (String × PyVal)) (k : String) : Option PyVal :=
  (kvs.find? (fun p => p.1 = k)).map (fun p => p.2)

def PyVal.isDict : PyVal → Bool
  | PyVal.dict _ => true
  | _ => false

/-- The empty persisted document `{"bindings": [], "game_subscriptions": []}`. -/
def emptyStateDoc : PyVal :=
  PyVal.dict [("bindings", PyVal.list []), ("game_subscriptions", PyVal.list [])]

/-- `SteamStateStore._read_state_sync`.  The file system outcome is
modelled as: `Option.none` — the file does not exist; `some Option.none` —
the file exists but `json.loads` raised; `some (some v)` — the file parsed
to the value `v`. -/
def readStateSync (file : Option (Option PyVal)) : PyVal :=
  match file with
  | Option.none => emptyStateDoc
  | some Option.none => emptyStateDoc
  | some (some v) => if v.isDict then v else emptyStateDoc

/-- `bindings if isinstance(bindings, list) else []`. -/
def pyListOrNil : Option PyVal → List PyVal
  | some (PyVal.list xs) => xs
  | _ => []

/-- Whether an optional field value is a JSON list. -/
def isListVal : Option PyVal → Bool
  | some (PyVal.list _) => true
  | _ => false

/-- `SteamStateStore.load_state`: returns `(bindings, game_subscriptions)`,
each defaulting to `[]` unless the corresponding field is a JSON list. -/
def loadState (file : Option (Option PyVal)) : List PyVal × List PyVal :=
  match readStateSync file with
  | PyVal.dict kvs =>
    (pyListOrNil (dictGet kvs "bindings"),
     pyListOrNil (dictGet kvs "game_subscriptions"))
  | _ => ([], [])

/-! ## `SteamWatch.__init__` calling `SteamStateStore.__init__`

`SteamWatch.__init__` invokes
`SteamStateStore(Path(...) / "astrbot_steam_watch_status", cards_dir=temp_cards_dir)`,
while `SteamStateStore.__init__(self, base_dir)` declares no `cards_dir`
parameter (and no `**kwargs`).  Python rejects such a call with a
`TypeError` before the constructor body runs. -/

/-- The non-`self` parameter names of `SteamStateStore.__init__`. -/
def steamStateStoreInitParams : List String := ["base_dir"]

/-- The keyword-argument names `SteamWatch.__init__` passes to the
`SteamStateStore` constructor call. -/
def steamWatchStoreCallKeywords : List String := ["cards_dir"]

/-- A Python call binds successfully only if every keyword argument names
a declared parameter (no `**kwargs` is present). -/
def pythonKeywordsAccepted (params kwargs : List String) : Bool :=
  kwargs.all (fun k => params.contains k)

/-- `SteamWatch.__init__` raises `TypeError` iff its `SteamStateStore`
call fails keyword binding. -/
def steamWatchInitRaisesTypeError : Bool :=
  !pythonKeywordsAccepted steamStateStoreInitParams steamWatchStoreCallKeywords

/-! ## `main.py` — `_generate_llm_comment` sanitization -/

/-- The trailing terminal-punctuation characters stripped before the
appended full stop: `"，。,.!?！？"`. -/
def termPunctChars : List Char := ['，', '。', ',', '.', '!', '?', '！', '？']

/-- The characters stripped from both ends after whitespace collapsing:
space, the two ASCII quotes and the four full-width quotes
(`" \"'“”‘’"`). -/
def quoteStripChars : List Char :=
  [' ', Char.ofNat 34, Char.ofNat 39, '“', '”', '‘', '’']

/-- The full-width stop `。` appended after truncation. -/
def fullStop : Char := '。'

/-- The sanitization pipeline applied to `completion_text`:
`.strip()`, then `re.sub(r"\s+", " ", ·)`, then `.replace("\n", " ")`,
then `.strip(" \"'“”‘’")`. -/
def sanitizeLlmText (l : List Char) : List Char :=
  let t1 := stripBy isPySpace l
  let t2 := collapseWs t1
  let t3 := t2.map (fun c => if c = '\n' then ' ' else c)
  stripBy (fun c => quoteStripChars.contains c) t3

/-- The length guard: when the sanitized text exceeds 28 characters it
becomes `text[:28].rstrip("，。,.!?！？") + "。"`. -/
def clipLlmComment (t : List Char) : List Char :=
  if t.length > 28 then
    rstripBy (fun c => termPunctChars.contains c) (t.take 28) ++ [fullStop]
  else t

/-- `SteamWatch._generate_llm_comment` from the point the provider call
resolves: `Option.none` models any exception or timeout inside the `try`
block (caught, yielding `""`); `some s` models a reply whose
`completion_text` is `s`. -/
def generateLlmComment : Option String → String
  | Option.none => ""
  | some s => String.mk (clipLlmComment (sanitizeLlmText s.data))

/-! ## `main.py` — `_handle_bind` duplicate check

The lock-held scan before inserting a new binding (the same predicate is
evaluated in both lock-held passes of `_handle_bind`): the first existing
binding with the same `(platform, group_id, steamid64)` causes a textual
rejection — "already bound by you" when its `sender_id` matches the
request, otherwise "held by another member" — and the list is left
untouched; when no such binding exists the new record is appended. -/

structure BindRec where
  platform : String
  groupId : String
  senderId : String
  senderName : String
  steamid64 : String
  steamName : String
deriving DecidableEq, Repr

inductive BindOutcome where
  | alreadyBoundSelf
  | heldByOther
  | success
deriving DecidableEq, Repr

/-- Two bindings collide when they agree on `(platform, group_id, steamid64)`. -/
def sameSteamKey (a b : BindRec) : Bool :=
  a.platform == b.platform && a.groupId == b.groupId && a.steamid64 == b.steamid64

/-- `_handle_bind`'s list mutation: scan for a `(platform, group, steamid64)`
collision; reject on the first hit, append otherwise. -/
def handleBind (bs : List BindRec) (req : BindRec) : List BindRec × BindOutcome :=
  match bs.find? (fun old => sameSteamKey old req) with
  | some old =>
    (bs, if old.senderId == req.senderId then BindOutcome.alreadyBoundSelf
         else BindOutcome.heldByOther)
  | Option.none => (bs ++ [req], BindOutcome.success)

/-! ## `main.py` — `_poll_player_status_once` per-binding state machine -/

/-- The `pending_endgame` debounce record. -/
structure PendingEnd where
  oldAppid : Int
  oldGame : String
  startTs : Int
  pendingState : String
deriving DecidableEq, Repr

/-- The fields of a binding dict that `_poll_player_status_once` reads or
writes. -/
structure Binding where
  id : String
  session : String
  senderName : String
  steamid64 : String
  steamName : String
  avatarUrl : String
  lastState : String
  lastAppid : Int
  lastGameName : String
  inGameSinceTs : Int
  lastChangeTs : Int
  recentStates : List String
  pendingEndgame : Option PendingEnd
deriving DecidableEq, Repr

/-- One entry of `changes_by_session`. -/
structure ChangeEvent where
  steamName : String
  groupNick : String
  steamid64 : String
  avatarUrl : String
  oldState : String
  oldAppid : Int
  oldGame : String
  newState : String
  newAppid : Int
  newGame : String
  sessionSecs : Int
  networkJitter : Bool
deriving DecidableEq, Repr

/-- `new_game or (f"App {new_appid}" if new_appid else "")`. -/
def newGameLabel (newAppid : Int) (newGame : String) : String :=
  pyOrS newGame (if newAppid ≠ 0 then "App " ++ toString newAppid else "")

/-- The outcome of the `if changed:` classification block (lines 674–707):
the marker afterwards, whether to emit, the jitter flag, the event's old
side and the computed session seconds. -/
structure ChangeCalc where
  pendingAfter : Option PendingEnd
  emitChange : Bool
  jitter : Bool
  changeOldState : String
  changeOldAppid : Int
  changeOldGame : String
  sessionSecs : Int
deriving DecidableEq, Repr

/-- Classification inside `if changed:`.  `b` is the snapshot binding
after the name/avatar refresh; `pending` is the marker read before the
block. -/
def classifyChanged (b : Binding) (pending : Option PendingEnd)
    (oldState : String) (oldAppid : Int) (newState : String) (nowTs : Int) :
    ChangeCalc :=
  let oldGameName := b.lastGameName
  let oldInGameSince := pyOrI b.inGameSinceTs (pyOrI b.lastChangeTs nowTs)
  if oldState = "in_game" ∧ (newState = "online" ∨ newState = "offline") then
    { pendingAfter := some ⟨oldAppid, oldGameName, oldInGameSince, newState⟩
      emitChange := false
      jitter := false
      changeOldState := oldState
      changeOldAppid := oldAppid
      changeOldGame := oldGameName
      sessionSecs := 0 }
  else
    match pending with
    | some p =>
      if newState = "in_game" then
        let ps := p.pendingState
        { pendingAfter := Option.none
          emitChange := true
          jitter := (ps == "online" || ps == "offline")
          changeOldState := pyOrS ps oldState
          changeOldAppid := pyOrI p.oldAppid oldAppid
          changeOldGame := pyOrS p.oldGame oldGameName
          sessionSecs := 0 }
      else if (oldState = "online" ∨ oldState = "offline") ∧
              (newState = "online" ∨ newState = "offline") then
        let pStart := pyOrI p.startTs (pyOrI b.lastChangeTs nowTs)
        { pendingAfter := Option.none
          emitChange := true
          jitter := false
          changeOldState := "in_game"
          changeOldAppid := pyOrI p.oldAppid oldAppid
          changeOldGame := pyOrS p.oldGame oldGameName
          sessionSecs := max 0 (nowTs - pStart) }
      else
        { pendingAfter := some p
          emitChange := true
          jitter := false
          changeOldState := oldState
          changeOldAppid := oldAppid
          changeOldGame := oldGameName
          sessionSecs := 0 }
    | Option.none =>
      { pendingAfter := Option.none
        emitChange := true
        jitter := false
        changeOldState := oldState
        changeOldAppid := oldAppid
        changeOldGame := oldGameName
        sessionSecs := 0 }

/-- The body of `if changed:` after classification: optional nickname
refresh, event emission, and the `last_state`/`in_game_since_ts`
write-back.  `latestSenderName` is the value
`_get_binding_latest_sender_name` would return (`""` when the platform
lookup yields nothing). -/
def applyChanged (b : Binding) (pending : Option PendingEnd)
    (oldState : String) (oldAppid : Int) (newState : String) (newAppid : Int)
    (newGame : String) (steamName avatarUrl : String) (nowTs : Int)
    (latestSenderName : String) : Binding × List ChangeEvent :=
  let cls := classifyChanged b pending oldState oldAppid newState nowTs
  let b := { b with pendingEndgame := cls.pendingAfter }
  let b := if cls.emitChange ∧ b.session ≠ "" ∧ latestSenderName ≠ "" then
             { b with senderName := latestSenderName }
           else b
  let evs :=
    if cls.emitChange ∧ b.session ≠ "" then
      [{ steamName := steamName
         groupNick := pyOrS b.senderName "未知成员"
         steamid64 := b.steamid64
         avatarUrl := avatarUrl
         oldState := cls.changeOldState
         oldAppid := cls.changeOldAppid
         oldGame := cls.changeOldGame
         newState := newState
         newAppid := newAppid
         newGame := newGameLabel newAppid newGame
         sessionSecs := cls.sessionSecs
         networkJitter := cls.jitter }]
    else []
  let b := { b with lastState := newState, lastAppid := newAppid,
                    lastGameName := newGame, lastChangeTs := nowTs }
  let b :=
    if newState = "in_game" ∧ newAppid > 0 then
      { b with inGameSinceTs := nowTs }
    else if cls.emitChange ∧ cls.changeOldState = "in_game" ∧
            (newState = "online" ∨ newState = "offline") then
      { b with inGameSinceTs := 0 }
    else b
  (b, evs)

/-- The stable-pending branch (lines 631–672): the marker is set, the
freshly observed state is unchanged and stays online/offline — emit the
"game ended" event, clear the marker and `in_game_since_ts`. -/
def applyPendingStable (b : Binding) (p : PendingEnd) (newState : String)
    (newAppid : Int) (newGame : String) (steamName avatarUrl : String)
    (nowTs : Int) (latestSenderName : String) : Binding × List ChangeEvent :=
  let oldAppid := b.lastAppid
  let pendingStart := pyOrI p.startTs (pyOrI b.lastChangeTs nowTs)
  let pendingOldAppid := pyOrI p.oldAppid oldAppid
  let pendingOldGame := pyOrS p.oldGame (pyOrS b.lastGameName "")
  let sessionSecs := max 0 (nowTs - pendingStart)
  let b := if b.session ≠ "" ∧ latestSenderName ≠ "" then
             { b with senderName := latestSenderName }
           else b
  let evs :=
    if b.session ≠ "" then
      [{ steamName := steamName
         groupNick := pyOrS b.senderName "未知成员"
         steamid64 := b.steamid64
         avatarUrl := avatarUrl
         oldState := "in_game"
         oldAppid := pendingOldAppid
         oldGame := pendingOldGame
         newState := newState
         newAppid := newAppid
         newGame := newGameLabel newAppid newGame
         sessionSecs := sessionSecs
         networkJitter := false }]
    else []
  ({ b with pendingEndgame := Option.none, inGameSinceTs := 0,
            lastChangeTs := nowTs }, evs)

/-- One binding's pass through `_poll_player_status_once` when the batch
fetch returned a summary for it.  Inputs `newState/newAppid/newGame` are
`extract_player_state(player)`, `steamName/avatarUrl` the refreshed
profile fields, `nowTs` the cycle's `int(time.time())`. -/
def pollBindingStep (b0 : Binding) (newState : String) (newAppid : Int)
    (newGame : String) (steamName avatarUrl : String) (nowTs : Int)
    (latestSenderName : String) : Binding × List ChangeEvent :=
  let recent0 := (b0.recentStates.filter (fun x => x ≠ "")) ++ [newState]
  let recent := if recent0.length > 3 then recent0.drop (recent0.length - 3)
                else recent0
  let b := { b0 with steamName := steamName, avatarUrl := avatarUrl,
                     recentStates := recent }
  let oldState := b.lastState
  let oldAppid := b.lastAppid
  let pending := b.pendingEndgame
  if oldState = "" then
    ({ b with lastState := newState, lastAppid := newAppid,
              lastGameName := newGame, lastChangeTs := nowTs }, [])
  else
    let changed := newState ≠ oldState ∨ (newState = "in_game" ∧ newAppid ≠ oldAppid)
    match pending with
    | some p =>
      if ¬changed ∧ (oldState = "online" ∨ oldState = "offline") ∧
         newState = oldState then
        applyPendingStable b p newState newAppid newGame steamName avatarUrl
          nowTs latestSenderName
      else if changed then
        applyChanged b (some p) oldState oldAppid newState newAppid newGame
          steamName avatarUrl nowTs latestSenderName
      else (b, [])
    | Option.none =>
      if changed then
        applyChanged b Option.none oldState oldAppid newState newAppid newGame
          steamName avatarUrl nowTs latestSenderName
      else (b, [])

/-! ## `main.py` — `_poll_game_news_once` per-subscription step -/

structure Subscription where
  id : String
  session : String
  appid : Int
  gameName : String
  lastNewsGid : String
deriving DecidableEq, Repr

structure NewsItem where
  gid : String
  title : String
  url : String
  author : String
  contents : String
  date : Int
deriving DecidableEq, Repr

/-- One subscription's pass through `_poll_game_news_once`.  `latest` is
the result of `_fetch_latest_news(appid)` (`Option.none` models both a
failed fetch and an empty news list).  Returns the updated subscription
and the number of pushes dispatched for it. -/
def pollNewsStep (s : Subscription) (latest : Option NewsItem) :
    Subscription × Nat :=
  if s.appid ≤ 0 then (s, 0)
  else
    match latest with
    | Option.none => (s, 0)
    | some n =>
      let oldGid := s.lastNewsGid
      let newGid := n.gid
      let pushed := if oldGid ≠ "" ∧ newGid ≠ "" ∧ oldGid ≠ newGid then 1 else 0
      ({ s with lastNewsGid := pyOrS newGid oldGid }, pushed)

/-! ## Helper lemmas -/

theorem length_rstripBy_le (p : Char → Bool) (l : List Char) :
    (rstripBy p l).length ≤ l.length := by
  unfold rstripBy
  calc (l.reverse.dropWhile p).reverse.length
      = (l.reverse.dropWhile p).length := List.length_reverse _
    _ ≤ l.reverse.length :=
        (List.IsSuffix.sublist (List.dropWhile_suffix p)).length_le
    _ = l.length := List.length_reverse _

theorem pyOrS_self (a : String) : pyOrS a a = a := by
  unfold pyOrS
  split <;> rfl

theorem pyListOrNil_of_not_list (o : Option PyVal) (h : isListVal o = false) :
    pyListOrNil o = [] := by
  match o with
  | Option.none => rfl
  | some (PyVal.str _) => rfl
  | some (PyVal.int _) => rfl
  | some (PyVal.bool _) => rfl
  | some (PyVal.list _) => simp [isListVal] at h
  | some (PyVal.dict _) => rfl
  | some PyVal.pynone => rfl

/-! ## Claims -/

/-- C3.  The claim that constructing the `SteamWatch` plugin succeeds is
violated by the code itself: `SteamWatch.__init__` passes the keyword
argument `cards_dir` to the `SteamStateStore` constructor, whose
`__init__` declares only `base_dir`, so keyword binding fails and Python
raises `TypeError` before plugin construction completes — for every
configuration. -/
theorem c3_init_type_error :
    pythonKeywordsAccepted steamStateStoreInitParams steamWatchStoreCallKeywords
      = false ∧
    steamWatchInitRaisesTypeError = true := by
  exact ⟨rfl, rfl⟩

/-- C7.  A binding whose persisted `last_state` is unset (the empty
string) adopts the freshly observed state, appid and game name as its
baseline — updating `last_state`, `last_appid`, `last_game_name` and
`last_change_ts` — and emits no change event in that poll cycle. -/
theorem c7_baseline_adoption (b : Binding) (ns : String) (na : Int)
    (ng sn av nick : String) (t : Int) (h : b.lastState = "") :
    (pollBindingStep b ns na ng sn av t nick).2 = [] ∧
    (pollBindingStep b ns na ng sn av t nick).1.lastState = ns ∧
    (pollBindingStep b ns na ng sn av t nick).1.lastAppid = na ∧
    (pollBindingStep b ns na ng sn av t nick).1.lastGameName = ng ∧
    (pollBindingStep b ns na ng sn av t nick).1.lastChangeTs = t := by
  simp [pollBindingStep, h]

/-- Witness for C7 at a concrete unset binding. -/
theorem c7_witness :
    (pollBindingStep
      ⟨"b7", "sess", "alice", "765", "sn", "av", "", 0, "", 0, 0, [],
       Option.none⟩ "online" 0 "" "sn" "av" 1000 "").2 = [] ∧
    (pollBindingStep
      ⟨"b7", "sess", "alice", "765", "sn", "av", "", 0, "", 0, 0, [],
       Option.none⟩ "online" 0 "" "sn" "av" 1000 "").1.lastState = "online" ∧
    (pollBindingStep
      ⟨"b7", "sess", "alice", "765", "sn", "av", "", 0, "", 0, 0, [],
       Option.none⟩ "online" 0 "" "sn" "av" 1000 "").1.lastAppid = 0 ∧
    (pollBindingStep
      ⟨"b7", "sess", "alice", "765", "sn", "av", "", 0, "", 0, 0, [],
       Option.none⟩ "online" 0 "" "sn" "av" 1000 "").1.lastGameName = "" ∧
    (pollBindingStep
      ⟨"b7", "sess", "alice", "765", "sn", "av", "", 0, "", 0, 0, [],
       Option.none⟩ "online" 0 "" "sn" "av" 1000 "").1.lastChangeTs = 1000 :=
  c7_baseline_adoption _ "online" 0 "" "sn" "av" "" 1000 rfl

/-- C8.  `load_state` treats malformed persisted state as empty state and
never raises: a missing file, unparseable JSON, a non-dict top level, or
a dict whose `bindings`/`game_subscriptions` fields are not lists all
yield `([], [])` for the affected parts. -/
theorem c8_load_state_malformed :
    loadState Option.none = ([], []) ∧
    loadState (some Option.none) = ([], []) ∧
    (∀ v : PyVal, v.isDict = false → loadState (some (some v)) = ([], [])) ∧
    (∀ kvs : List (String × PyVal),
      isListVal (dictGet kvs "bindings") = false →
      isListVal (dictGet kvs "game_subscriptions") = false →
      loadState (some (some (PyVal.dict kvs))) = ([], [])) := by
  refine ⟨rfl, rfl, ?_, ?_⟩
  · intro v h
    simp only [loadState, readStateSync, h, Bool.false_eq_true, if_false]
    rfl
  · intro kvs h1 h2
    simp only [loadState, readStateSync, PyVal.isDict, if_true,
      pyListOrNil_of_not_list _ h1, pyListOrNil_of_not_list _ h2]

/-- Witness for C8 at a concrete malformed document. -/
theorem c8_witness :
    loadState (some (some (PyVal.list []))) = ([], []) ∧
    loadState (some (some (PyVal.dict [("bindings", PyVal.int 3)]))) = ([], []) :=
  ⟨(c8_load_state_malformed.2.2.1 (PyVal.list []) rfl),
   (c8_load_state_malformed.2.2.2 [("bindings", PyVal.int 3)] rfl rfl)⟩

/-- C9.  The configured poll interval parses via `int(str(raw).strip())`:
a parsed value of at least 10 is kept, a parsed value below 10 is clamped
up to 10, and a parse failure defaults to 60. -/
theorem c9_poll_interval (raw : String) :
    (pyParseInt (pyStrip raw) = Option.none → parsePollIntervalSec raw = 60) ∧
    (∀ v : Int, pyParseInt (pyStrip raw) = some v →
      (10 ≤ v → parsePollIntervalSec raw = v) ∧
      (v < 10 → parsePollIntervalSec raw = 10)) := by
  constructor
  · intro h
    simp [parsePollIntervalSec, h]
  · intro v h
    constructor
    · intro hv
      simp [parsePollIntervalSec, h, not_lt.mpr hv]
    · intro hv
      simp [parsePollIntervalSec, h, hv]

/-- Witness for C9: a value above the clamp, one below it, and a
non-integer configuration string. -/
theorem c9_witness :
    parsePollIntervalSec "60" = 60 ∧
    parsePollIntervalSec " 5 " = 10 ∧
    parsePollIntervalSec "abc" = 60 :=
  ⟨((c9_poll_interval "60").2 60 rfl).1 (by norm_num),
   ((c9_poll_interval " 5 ").2 5 rfl).2 (by norm_num),
   (c9_poll_interval "abc").1 rfl⟩

/-- C4, counterexample.  On a 30-character reply of letters the sanitized
output is 29 characters long, not at most 28: the code appends `。` after
truncating to 28 characters and stripping trailing punctuation, so when
`text[:28]` ends in a letter the result has 29 characters. -/
theorem c4_counterexample :
    ("aaaaaaaaaaaaaaaaaaaaaaaaaaaaaa" : String).length = 30 ∧
    (generateLlmComment (some "aaaaaaaaaaaaaaaaaaaaaaaaaaaaaa")).length = 29 := by
  exact ⟨rfl, rfl⟩

/-- C4, amended.  A generation failure or timeout yields `""`; a reply is
sanitized (whitespace collapsed, surrounding quotes stripped), and when
the sanitized text exceeds 28 characters the output is truncated to at
most 29 characters — the first 28 characters less any trailing terminal
punctuation, plus an appended `。` — and always ends in the terminal
punctuation mark `。`. -/
theorem c4_comment_sanitized (s : String) :
    generateLlmComment Option.none = "" ∧
    ((sanitizeLlmText s.data).length ≤ 28 →
      generateLlmComment (some s) = String.mk (sanitizeLlmText s.data)) ∧
    ((sanitizeLlmText s.data).length > 28 →
      (generateLlmComment (some s)).length ≤ 29 ∧
      ∃ l, (generateLlmComment (some s)).data = l ++ [fullStop]) := by
  refine ⟨rfl, ?_, ?_⟩
  · intro h
    simp [generateLlmComment, clipLlmComment, Nat.not_lt.mpr h]
  · intro h
    constructor
    · show (String.mk (clipLlmComment (sanitizeLlmText s.data))).length ≤ 29
      simp only [clipLlmComment, h, if_true, String.length]
      rw [List.length_append]
      have h1 := length_rstripBy_le (fun c => termPunctChars.contains c)
        ((sanitizeLlmText s.data).take 28)
      have h2 : ((sanitizeLlmText s.data).take 28).length ≤ 28 := by
        simp [List.length_take]
      simp only [List.length_singleton]
      omega
    · refine ⟨rstripBy (fun c => termPunctChars.contains c)
        ((sanitizeLlmText s.data).take 28), ?_⟩
      show (String.mk (clipLlmComment (sanitizeLlmText s.data))).data = _
      simp [clipLlmComment, h]

/-- Witness for C4: a short reply passes through unchanged and a failed
generation yields the empty string. -/
theorem c4_witness :
    generateLlmComment (some "hi") = "hi" ∧ generateLlmComment Option.none = "" := by
  have h := c4_comment_sanitized "hi"
  exact ⟨by rw [h.2.1 (by decide)]; rfl, h.1⟩

/-- C5, counterexample.  The bind handler enforces only the
`(platform, group, steamid64)` uniqueness: a member already bound to one
Steam account may bind a second, different account in the same group —
the request is accepted and the list gains a second binding for the same
`(platform, group, member)`, so the claimed rejection does not happen. -/
theorem c5_counterexample :
    handleBind [⟨"qq", "g", "m", "alice", "A", "nameA"⟩]
        ⟨"qq", "g", "m", "alice", "B", "nameB"⟩ =
      ([⟨"qq", "g", "m", "alice", "A", "nameA"⟩,
        ⟨"qq", "g", "m", "alice", "B", "nameB"⟩], BindOutcome.success) ∧
    (⟨"qq", "g", "m", "alice", "A", "nameA"⟩ : BindRec).senderId
      = (⟨"qq", "g", "m", "alice", "B", "nameB"⟩ : BindRec).senderId := by
  exact ⟨rfl, rfl⟩

/-- C5, amended.  The bind handler enforces only the second uniqueness:
at most one member per `(platform, group, steamid64)`.  A request whose
Steam account is already bound in the group is rejected (whether held by
the requester or another member) and leaves the list unchanged; otherwise
the record is appended, and the pairwise `(platform, group, steamid64)`
uniqueness of the list is preserved.  Per-member uniqueness is not
enforced. -/
theorem c5_steamid_unique (bs : List BindRec) (req : BindRec)
    (h : List.Pairwise (fun a b => sameSteamKey a b = false) bs) :
    List.Pairwise (fun a b => sameSteamKey a b = false) (handleBind bs req).1 ∧
    ((∃ old ∈ bs, sameSteamKey old req = true) →
      (handleBind bs req).1 = bs ∧ (handleBind bs req).2 ≠ BindOutcome.success) := by
  cases hf : bs.find? (fun old => sameSteamKey old req) with
  | some old =>
    simp only [handleBind, hf]
    refine ⟨h, fun _ => ⟨by trivial, ?_⟩⟩
    split <;> simp
  | none =>
    have hall : ∀ x ∈ bs, sameSteamKey x req = false := by
      intro x hx
      have := List.find?_eq_none.mp hf x hx
      simpa using this
    simp only [handleBind, hf]
    constructor
    · rw [List.pairwise_append]
      exact ⟨h, List.pairwise_singleton _ _, fun a ha b hb => by
        simp only [List.mem_singleton] at hb
        subst hb
        exact hall a ha⟩
    · rintro ⟨old, hmem, hkey⟩
      rw [hall old hmem] at hkey
      exact absurd hkey (by simp)

/-- Witness for C5: the rejection and uniqueness-preservation at a
concrete collision (same Steam account, different member). -/
theorem c5_witness :
    List.Pairwise (fun a b => sameSteamKey a b = false)
      (handleBind [⟨"qq", "g", "m", "alice", "A", "nameA"⟩]
        ⟨"qq", "g", "bob-id", "bob", "A", "nameA"⟩).1 ∧
    (handleBind [⟨"qq", "g", "m", "alice", "A", "nameA"⟩]
        ⟨"qq", "g", "bob-id", "bob", "A", "nameA"⟩).1 =
      [⟨"qq", "g", "m", "alice", "A", "nameA"⟩] ∧
    (handleBind [⟨"qq", "g", "m", "alice", "A", "nameA"⟩]
        ⟨"qq", "g", "bob-id", "bob", "A", "nameA"⟩).2 ≠ BindOutcome.success := by
  have h := c5_steamid_unique [⟨"qq", "g", "m", "alice", "A", "nameA"⟩]
    ⟨"qq", "g", "bob-id", "bob", "A", "nameA"⟩ (by decide)
  have h2 := h.2 ⟨⟨"qq", "g", "m", "alice", "A", "nameA"⟩, by decide⟩
  exact ⟨h.1, h2.1, h2.2⟩

/-- C6, counterexample.  A subscription whose stored `last_news_gid` is
empty sees a freshly fetched gid `"200"` — the two differ — yet zero
pushes are dispatched (the code requires both gids non-empty before
pushing); the gid is still stored. -/
theorem c6_counterexample :
    (⟨"s1", "sess", 730, "CS2", ""⟩ : Subscription).lastNewsGid ≠
      (⟨"200", "t", "u", "a", "c", 1⟩ : NewsItem).gid ∧
    pollNewsStep ⟨"s1", "sess", 730, "CS2", ""⟩
        (some ⟨"200", "t", "u", "a", "c", 1⟩) =
      (⟨"s1", "sess", 730, "CS2", "200"⟩, 0) := by
  exact ⟨by decide, rfl⟩

/-- C6, amended.  For a subscription with a positive appid: a failed
fetch pushes nothing and keeps the stored gid; a fetched gid that is
non-empty, differs from a non-empty stored gid triggers exactly one push
and stores the new gid; a fetched gid equal to the stored gid pushes
nothing and leaves the gid unchanged.  (When either gid is empty nothing
is pushed; the non-empty fetched gid is still stored — see C10.) -/
theorem c6_news_push (s : Subscription) (latest : Option NewsItem)
    (hApp : s.appid > 0) :
    (latest = Option.none → pollNewsStep s latest = (s, 0)) ∧
    (∀ n : NewsItem, latest = some n →
      (s.lastNewsGid ≠ "" → n.gid ≠ "" → s.lastNewsGid ≠ n.gid →
        pollNewsStep s latest = ({ s with lastNewsGid := n.gid }, 1)) ∧
      (n.gid = s.lastNewsGid → pollNewsStep s latest = (s, 0))) := by
  have hneg : ¬ s.appid ≤ 0 := not_le.mpr hApp
  constructor
  · intro h
    subst h
    simp [pollNewsStep, hneg]
  · intro n h
    subst h
    constructor
    · intro h1 h2 h3
      simp [pollNewsStep, hneg, h1, h2, h3, pyOrS]
    · intro h4
      simp [pollNewsStep, hneg, h4, pyOrS_self]

/-- Witness for C6: stored gid `"100"`, fetched gid `"200"` — one push and
the gid advances; fetching `"200"` again pushes nothing. -/
theorem c6_witness :
    pollNewsStep ⟨"s2", "sess", 440, "TF2", "100"⟩
        (some ⟨"200", "t", "u", "a", "c", 1⟩) =
      (⟨"s2", "sess", 440, "TF2", "200"⟩, 1) ∧
    pollNewsStep ⟨"s2", "sess", 440, "TF2", "200"⟩
        (some ⟨"200", "t", "u", "a", "c", 1⟩) =
      (⟨"s2", "sess", 440, "TF2", "200"⟩, 0) := by
  constructor
  · exact (((c6_news_push ⟨"s2", "sess", 440, "TF2", "100"⟩
      (some ⟨"200", "t", "u", "a", "c", 1⟩) (by norm_num)).2 _ rfl).1
      (by decide) (by decide) (by decide))
  · exact (((c6_news_push ⟨"s2", "sess", 440, "TF2", "200"⟩
      (some ⟨"200", "t", "u", "a", "c", 1⟩) (by norm_num)).2 _ rfl).2 rfl)

/-- C10.  A subscription whose stored `last_news_gid` is empty stores a
freshly fetched non-empty gid without dispatching any push; and a push
is dispatched only when both the stored gid and the fetched gid are
non-empty and differ. -/
theorem c10_news_empty_gid (s : Subscription) (n : NewsItem)
    (hApp : s.appid > 0) :
    (s.lastNewsGid = "" → n.gid ≠ "" →
      pollNewsStep s (some n) = ({ s with lastNewsGid := n.gid }, 0)) ∧
    ((pollNewsStep s (some n)).2 ≠ 0 →
      s.lastNewsGid ≠ "" ∧ n.gid ≠ "" ∧ s.lastNewsGid ≠ n.gid) := by
  have hneg : ¬ s.appid ≤ 0 := not_le.mpr hApp
  constructor
  · intro h1 h2
    simp [pollNewsStep, hneg, h1, h2, pyOrS]
  · intro hp
    by_contra hc
    push_neg at hc
    apply hp
    simp only [pollNewsStep, hneg, if_false]
    by_cases ha : s.lastNewsGid = ""
    · simp [ha]
    · by_cases hb : n.gid = ""
      · simp [hb]
      · have := hc ha hb
        simp [this]

/-- Witness for C10: an empty stored gid adopts the fetched gid `"300"`
silently. -/
theorem c10_witness :
    pollNewsStep ⟨"s3", "sess", 570, "Dota", ""⟩
        (some ⟨"300", "t", "u", "a", "c", 1⟩) =
      (⟨"s3", "sess", 570, "Dota", "300"⟩, 0) :=
  (c10_news_empty_gid ⟨"s3", "sess", 570, "Dota", ""⟩
    ⟨"300", "t", "u", "a", "c", 1⟩ (by norm_num)).1 rfl (by decide)

/-- A concrete binding for the C2 scenario: a `pending_endgame` marker
recorded from an `in_game(730)` session that blipped to `offline`. -/
def c2Bind : Binding :=
  { id := "b2", session := "sess", senderName := "alice", steamid64 := "765"
    steamName := "sn", avatarUrl := "av", lastState := "offline", lastAppid := 0
    lastGameName := "", inGameSinceTs := 100, lastChangeTs := 200
    recentStates := [], pendingEndgame := some ⟨730, "CS2", 100, "offline"⟩ }

/-- C2, counterexample.  When the next observation is `in_game` again the
emitted event is tagged as jitter, but its old side's state is the
marker's `pending_state` (`"offline"` — the intervening observation),
not `"in_game"` as claimed. -/
theorem c2_counterexample :
    ((pollBindingStep c2Bind "in_game" 730 "CS2" "sn" "av" 300 "").2.map
        ChangeEvent.networkJitter = [true]) ∧
    ((pollBindingStep c2Bind "in_game" 730 "CS2" "sn" "av" 300 "").2.map
        ChangeEvent.oldState = ["offline"]) := by
  exact ⟨rfl, rfl⟩

/-- C2, amended.  With the marker set (its `pending_state` being the
recorded online/offline observation) and the next observed state
`in_game` again, the engine emits exactly one event tagged
`network_jitter = true` and no "game ended" event (the single event's new
state is `in_game` and its session seconds are 0); the event's old side
carries the marker's `pending_state` as the state — not `in_game` — with
the marker's old appid and old game name; the marker is cleared, and
`in_game_since_ts` is set to now for the new session. -/
theorem c2_jitter_resume (b : Binding) (p : PendingEnd) (na : Int)
    (ng sn av : String) (t : Int)
    (hp : b.pendingEndgame = some p)
    (hps : p.pendingState = "online" ∨ p.pendingState = "offline")
    (hold : b.lastState = "online" ∨ b.lastState = "offline")
    (hA : p.oldAppid ≠ 0) (hG : p.oldGame ≠ "")
    (hsess : b.session ≠ "") (hna : na > 0) :
    ((pollBindingStep b "in_game" na ng sn av t "").2.length = 1) ∧
    ((pollBindingStep b "in_game" na ng sn av t "").2.map
        ChangeEvent.networkJitter = [true]) ∧
    ((pollBindingStep b "in_game" na ng sn av t "").2.map
        ChangeEvent.newState = ["in_game"]) ∧
    ((pollBindingStep b "in_game" na ng sn av t "").2.map
        ChangeEvent.oldState = [p.pendingState]) ∧
    ((pollBindingStep b "in_game" na ng sn av t "").2.map
        ChangeEvent.oldAppid = [p.oldAppid]) ∧
    ((pollBindingStep b "in_game" na ng sn av t "").2.map
        ChangeEvent.oldGame = [p.oldGame]) ∧
    ((pollBindingStep b "in_game" na ng sn av t "").2.map
        ChangeEvent.sessionSecs = [0]) ∧
    ((pollBindingStep b "in_game" na ng sn av t "").1.pendingEndgame
      = Option.none) ∧
    ((pollBindingStep b "in_game" na ng sn av t "").1.inGameSinceTs = t) := by
  rcases hold with hold | hold <;> rcases hps with hps | hps <;>
    simp [pollBindingStep, applyChanged, classifyChanged, pyOrS, pyOrI,
      hp, hps, hold, hA, hG, hsess, hna]

/-- Witness for C2 at the concrete jittering binding. -/
theorem c2_witness :
    ((pollBindingStep c2Bind "in_game" 730 "CS2" "sn" "av" 300 "").2.length = 1) ∧
    ((pollBindingStep c2Bind "in_game" 730 "CS2" "sn" "av" 300 "").2.map
        ChangeEvent.sessionSecs = [0]) ∧
    ((pollBindingStep c2Bind "in_game" 730 "CS2" "sn" "av" 300 "").1.pendingEndgame
      = Option.none) ∧
    ((pollBindingStep c2Bind "in_game" 730 "CS2" "sn" "av" 300 "").1.inGameSinceTs
      = 300) := by
  have h := c2_jitter_resume c2Bind ⟨730, "CS2", 100, "offline"⟩ 730 "CS2" "sn" "av"
    300 rfl (Or.inr rfl) (Or.inr rfl) (by norm_num) (by decide) (by decide)
    (by norm_num)
  exact ⟨h.1, h.2.2.2.2.2.2.1, h.2.2.2.2.2.2.2.1, h.2.2.2.2.2.2.2.2⟩

/-- A concrete binding for the C1 scenario: in game 730 since time 100,
with the first `in_game → offline` transition observed at time 200 and
the confirming second cycle at time 300. -/
def c1Bind : Binding :=
  { id := "b1", session := "sess", senderName := "alice", steamid64 := "765"
    steamName := "sn", avatarUrl := "av", lastState := "in_game", lastAppid := 730
    lastGameName := "CS2", inGameSinceTs := 100, lastChangeTs := 100
    recentStates := [], pendingEndgame := Option.none }

/-- C1, counterexample.  Running the two cycles (first transition at
`now = 200`, confirmation at `now = 300`) emits the "game ended" event
with session duration 200 — `now` minus the binding's `in_game_since_ts`
(100) — not 100, the second cycle's time minus the time of the first
`in_game → offline` transition as the claim states. -/
theorem c1_counterexample :
    ((pollBindingStep c1Bind "offline" 0 "" "sn" "av" 200 "").2 = []) ∧
    ((pollBindingStep (pollBindingStep c1Bind "offline" 0 "" "sn" "av" 200 "").1
        "offline" 0 "" "sn" "av" 300 "").2.map ChangeEvent.sessionSecs = [200]) ∧
    (200 : Int) ≠ 300 - 200 := by
  refine ⟨rfl, rfl, by norm_num⟩

/-- C1, amended.  With the marker recorded on an `in_game → online/offline`
transition and the next cycle's observation unchanged, the engine emits
no event in the first cycle and exactly one "game ended" event in the
second, with session duration `now − pending_endgame.start_ts`; the
marker's start timestamp is the binding's `in_game_since_ts` captured at
the first transition — the time the game session began (falling back to
`last_change_ts` when unset) — not the time of the first `in_game →
offline` transition.  The marker is cleared and `in_game_since_ts` is
cleared to 0. -/
theorem c1_pending_endgame_second_cycle (b0 : Binding) (c1 : String)
    (a1 a2 : Int) (g1 g2 sn1 sn2 av1 av2 : String) (t1 t2 : Int)
    (hin : b0.lastState = "in_game")
    (hpend : b0.pendingEndgame = Option.none)
    (hc : c1 = "online" ∨ c1 = "offline")
    (hs0 : b0.inGameSinceTs ≠ 0)
    (hA : b0.lastAppid ≠ 0)
    (hG : b0.lastGameName ≠ "")
    (hsess : b0.session ≠ "") :
    ((pollBindingStep b0 c1 a1 g1 sn1 av1 t1 "").2 = []) ∧
    ((pollBindingStep (pollBindingStep b0 c1 a1 g1 sn1 av1 t1 "").1
        c1 a2 g2 sn2 av2 t2 "").2.length = 1) ∧
    ((pollBindingStep (pollBindingStep b0 c1 a1 g1 sn1 av1 t1 "").1
        c1 a2 g2 sn2 av2 t2 "").2.map ChangeEvent.oldState = ["in_game"]) ∧
    ((pollBindingStep (pollBindingStep b0 c1 a1 g1 sn1 av1 t1 "").1
        c1 a2 g2 sn2 av2 t2 "").2.map ChangeEvent.oldAppid = [b0.lastAppid]) ∧
    ((pollBindingStep (pollBindingStep b0 c1 a1 g1 sn1 av1 t1 "").1
        c1 a2 g2 sn2 av2 t2 "").2.map ChangeEvent.oldGame = [b0.lastGameName]) ∧
    ((pollBindingStep (pollBindingStep b0 c1 a1 g1 sn1 av1 t1 "").1
        c1 a2 g2 sn2 av2 t2 "").2.map ChangeEvent.sessionSecs
      = [max 0 (t2 - b0.inGameSinceTs)]) ∧
    ((pollBindingStep (pollBindingStep b0 c1 a1 g1 sn1 av1 t1 "").1
        c1 a2 g2 sn2 av2 t2 "").2.map ChangeEvent.networkJitter = [false]) ∧
    ((pollBindingStep (pollBindingStep b0 c1 a1 g1 sn1 av1 t1 "").1
        c1 a2 g2 sn2 av2 t2 "").1.pendingEndgame = Option.none) ∧
    ((pollBindingStep (pollBindingStep b0 c1 a1 g1 sn1 av1 t1 "").1
        c1 a2 g2 sn2 av2 t2 "").1.inGameSinceTs = 0) := by
  rcases hc with hc | hc <;> subst hc <;>
    simp [pollBindingStep, applyChanged, classifyChanged, applyPendingStable,
      pyOrS, pyOrI, hin, hpend, hs0, hA, hG, hsess]

/-- Witness for C1 at the concrete two-cycle scenario. -/
theorem c1_witness :
    ((pollBindingStep c1Bind "offline" 0 "" "sn" "av" 200 "").2 = []) ∧
    ((pollBindingStep (pollBindingStep c1Bind "offline" 0 "" "sn" "av" 200 "").1
        "offline" 0 "" "sn" "av" 300 "").2.length = 1) ∧
    ((pollBindingStep (pollBindingStep c1Bind "offline" 0 "" "sn" "av" 200 "").1
        "offline" 0 "" "sn" "av" 300 "").2.map ChangeEvent.oldState
      = ["in_game"]) ∧
    ((pollBindingStep (pollBindingStep c1Bind "offline" 0 "" "sn" "av" 200 "").1
        "offline" 0 "" "sn" "av" 300 "").2.map ChangeEvent.sessionSecs
      = [max 0 (300 - c1Bind.inGameSinceTs)]) ∧
    ((pollBindingStep (pollBindingStep c1Bind "offline" 0 "" "sn" "av" 200 "").1
        "offline" 0 "" "sn" "av" 300 "").1.pendingEndgame = Option.none) ∧
    ((pollBindingStep (pollBindingStep c1Bind "offline" 0 "" "sn" "av" 200 "").1
        "offline" 0 "" "sn" "av" 300 "").1.inGameSinceTs = 0) := by
  have h := c1_pending_endgame_second_cycle c1Bind "offline" 0 0 "" "" "sn" "sn"
    "av" "av" 200 300 rfl rfl (Or.inr rfl) (by simp [c1Bind])
    (by simp [c1Bind]) (by decide) (by decide)
  exact ⟨h.1, h.2.1, h.2.2.1, h.2.2.2.2.2.1, h.2.2.2.2.2.2.2.1,
    h.2.2.2.2.2.2.2.2⟩

end SteamWatch
